import Mathlib

/-!
Verification development for the LiveStore node-adapter diagnostic scripts.

The repository contains two variants of one diagnostic script:
the original reproduction script (src/test-bug.js) and the corrected
script (src/unnamed/part_000).  Both build the same literal event and
table descriptions, call the library's schema factory, inspect the
returned schema's eventsDefsMap field, race store creation against a
5000 ms timer, attempt subscribe and commit, and print narration.

This file gives a shallow embedding of the locally authored logic of
those scripts: the JavaScript value universe the eventsDefsMap field
ranges over, the two schema-inspection steps, and an operational model
of the main function of src/test-bug.js as a function from the
behaviour of the external library (an environment) to the run's
observable outcome (executed steps, narration lines, locally caught
errors, escaped error, process exit calls).
-/

namespace TestBug

/-- JavaScript runtime error as observed by the scripts: a message string
and the name of the error's constructor. -/
structure JsError where
  message : String
  ctorName : String
  deriving DecidableEq, Repr

/-- Values the schema's eventsDefsMap field ranges over in this
development: undefined, null, a JavaScript Map (represented by its list
of keys), or a plain object (represented by its own enumerable
properties; property values are abstracted to naturals, which is enough
for the size and key inspections the scripts perform). -/
inductive JsVal where
  | undef
  | jsNull
  | jsMap (keys : List String)
  | jsObj (props : List (String × Nat))
  deriving DecidableEq, Repr

/-- Result of a JavaScript property read in this development. -/
inductive JsProp where
  | undefProp
  | numProp (n : Nat)
  deriving DecidableEq, Repr

/-- JavaScript property access v.p: throws a TypeError on undefined and
null; a Map exposes its size property (its entry count); a plain object
yields the stored property or undefined. -/
def getProp : JsVal → String → Except JsError JsProp
  | .undef, _ => .error ⟨"Cannot read properties of undefined", "TypeError"⟩
  | .jsNull, _ => .error ⟨"Cannot read properties of null", "TypeError"⟩
  | .jsMap keys, p =>
      if p = "size" then .ok (.numProp keys.length) else .ok .undefProp
  | .jsObj props, p =>
      match props.lookup p with
      | some n => .ok (.numProp n)
      | none => .ok .undefProp

/-- JavaScript truthiness restricted to this value universe: undefined
and null are falsy, every object (Map or plain object) is truthy. -/
def truthy : JsVal → Bool
  | .undef => false
  | .jsNull => false
  | .jsMap _ => true
  | .jsObj _ => true

/-- The logical-or defaulting idiom v two-pipes d of the original script:
the left operand when truthy, otherwise the default. -/
def jsOr (v d : JsVal) : JsVal := if truthy v then v else d

/-- JavaScript Object.keys: throws on undefined and null; on a plain
object it lists the own enumerable property names; on a Map it returns
the empty list, because Map entries live in internal slots and are not
own enumerable properties.  This last fact is the root cause of the
repository's originally reported bug. -/
def objectKeys : JsVal → Except JsError (List String)
  | .undef => .error ⟨"Cannot convert undefined or null to object", "TypeError"⟩
  | .jsNull => .error ⟨"Cannot convert undefined or null to object", "TypeError"⟩
  | .jsMap _ => .ok []
  | .jsObj props => .ok (props.map Prod.fst)

/-- Key list computed by the original script's guarded inspection,
Object.keys of (eventsDefsMap or empty object), as a total function. -/
def inspectOriginalKeys (edm : JsVal) : List String :=
  ((objectKeys (jsOr edm (.jsObj []))).toOption).getD []

/-- The original script's inspection (src/test-bug.js lines 70 to 74) in
the exception monad, to state that it never throws. -/
def inspectOriginal (edm : JsVal) : Except JsError (List String) :=
  objectKeys (jsOr edm (.jsObj []))

/-- The original script's Step 5 branch condition (src/test-bug.js line
80): true means the BUG CONFIRMED branch is printed, false means the
schema-appears-to-be-working branch is printed. -/
def step5Original (edm : JsVal) : Except JsError Bool :=
  (inspectOriginal edm).map (fun ks => ks.isEmpty)

/-- JavaScript comparison x greater-than zero for a property-read result:
a number compares numerically, undefined compares false. -/
def jsGtZero : JsProp → Bool
  | .undefProp => false
  | .numProp n => 0 < n

/-- The corrected script's Step 5 branch condition (src/unnamed/part_000
line 77), reading the unguarded size property: true means the
properly-populated branch is printed. -/
def step5Corrected (edm : JsVal) : Except JsError Bool :=
  (getProp edm "size").map jsGtZero

/-- Helper: whether an exceptional computation returned normally. -/
def returnedNormally : Except JsError α → Bool
  | .ok _ => true
  | .error _ => false

/-- First line of a string, as computed by the commit catch handler's
message.split at newline, index zero (src/test-bug.js line 167). -/
def firstLine (s : String) : String := (s.splitOn "\n").headD ""

/-- Schema of one field of the event payload struct; both fields of the
script's event are strings (Schema.String). -/
inductive FieldSchema where
  | stringField
  deriving DecidableEq, Repr

/-- Event definition literal as constructed by Events.synced at
src/test-bug.js lines 14 to 22: a name and a payload struct. -/
structure EventDef where
  name : String
  schemaFields : List (String × FieldSchema)
  deriving DecidableEq, Repr

/-- The single event literal of the script. -/
def testEvent : EventDef :=
  ⟨"v1.TestEvent", [("id", .stringField), ("message", .stringField)]⟩

/-- Column definition literal: the SQLite column type and whether the
column is the primary key. -/
structure ColumnDef where
  columnType : String
  primaryKey : Bool
  deriving DecidableEq, Repr

/-- Table definition literal as constructed by State.SQLite.table at
src/test-bug.js lines 30 to 38. -/
structure TableDef where
  name : String
  columns : List (String × ColumnDef)
  deriving DecidableEq, Repr

/-- The single table literal of the script. -/
def testTable : TableDef :=
  ⟨"test", [("id", ⟨"text", true⟩), ("message", ⟨"text", false⟩)]⟩

/-- Storage type literal passed to makeAdapter (src/test-bug.js line 115). -/
def storageType : String := "in-memory"

/-- Store identifier literal passed to createStorePromise
(src/test-bug.js line 122). -/
def storeId : String := "test-bug-repro"

/-- Event-name string passed to subscribe and to commit
(src/test-bug.js lines 146 and 161). -/
def testEventName : String := "v1.TestEvent"

/-- Commit payload literal (src/test-bug.js lines 161 to 164). -/
def commitPayload : List (String × String) :=
  [("id", "test-123"), ("message", "Hello World")]

/-- Timeout in milliseconds for the store-creation race
(src/test-bug.js line 109). -/
def timeoutMs : Nat := 5000

/-- Error with which the timer promise rejects (src/test-bug.js line 134). -/
def timeoutError : JsError := ⟨"Store creation timed out", "Error"⟩

/-- Decidable equality for exceptional results, needed to evaluate the
model on concrete environments. -/
instance instDecEqExcept [DecidableEq ε] [DecidableEq α] :
    DecidableEq (Except ε α) := fun a b =>
  match a, b with
  | .ok x, .ok y =>
      if h : x = y then .isTrue (congrArg Except.ok h)
      else .isFalse (fun hc => h (Except.ok.inj hc))
  | .ok _, .error _ => .isFalse (fun hc => Except.noConfusion hc)
  | .error _, .ok _ => .isFalse (fun hc => Except.noConfusion hc)
  | .error x, .error y =>
      if h : x = y then .isTrue (congrArg Except.error h)
      else .isFalse (fun hc => h (Except.error.inj hc))

/-- Behaviour of the external library during one run: the outcome of the
makeSchema call (on success, the value of the returned schema's
eventsDefsMap field), the time at which the store-creation promise
settles and its outcome, the settlement-processing order when store
creation and the timer settle in the same millisecond, and the outcomes
of the subscribe, commit and close calls. -/
structure LibEnv where
  makeSchemaResult : Except JsError JsVal
  storeSettleMs : Nat
  storeOutcome : Except JsError Unit
  tieStoreFirst : Bool
  subscribeOutcome : Except JsError Unit
  commitOutcome : Except JsError Unit
  closeOutcome : Except JsError Unit
  deriving DecidableEq, Repr

/-- Promise.race of store creation against the rejection timer
(src/test-bug.js lines 130 to 138): whichever settles first determines
the outcome of the await.  The race adds no cancellation: the model of
the run below never emits a clear-timer or abort action. -/
def raceStoreAgainstTimer (env : LibEnv) : Except JsError Unit :=
  if env.storeSettleMs < timeoutMs then env.storeOutcome
  else if timeoutMs < env.storeSettleMs then .error timeoutError
  else if env.tieStoreFirst then env.storeOutcome else .error timeoutError

/-- Externally visible actions of one run of main, in execution order.
The vocabulary includes the two cancellation actions a script could
perform on the race's loser (clearing the timer, aborting store
creation) so that their absence from every run is expressible. -/
inductive Step where
  | defineEvents
  | defineState
  | makeSchemaCall
  | inspectSchema
  | raceStoreCreation (storeIdArg : String) (storageTypeArg : String)
  | subscribeCall (eventName : String)
  | commitCall (eventName : String) (payload : List (String × String))
  | closeCall
  | finalDiagnostics
  | clearTimerCall
  | abortStoreCreation
  deriving DecidableEq, Repr

/-- Decision-carrying narration lines printed by main. -/
inductive Narration where
  | bugConfirmed
  | schemaWorking
  | storeCreated
  | storeCreationFailed (message : String)
  | subscribeOk
  | subscribeFailed (message ctorName : String)
  | commitOk
  | commitFailed (messageFirstLine ctorName : String)
  | storeClosed
  deriving DecidableEq, Repr

/-- Local catch sites of main: the try around the store-creation race
(whose block also covers subscribe, commit and close and whose catch
handles store-creation and close errors), the subscribe catch and the
commit catch. -/
inductive CatchSite where
  | storeCreation
  | subscribeSite
  | commitSite
  deriving DecidableEq, Repr

/-- Observable outcome of one run of main. -/
structure MainResult where
  steps : List Step
  narration : List Narration
  caught : List CatchSite
  escaped : Option JsError
  deriving DecidableEq, Repr

/-- Steps 1 to 3 of the script: define events, define state, call
makeSchema. -/
def preludeSteps : List Step :=
  [.defineEvents, .defineState, .makeSchemaCall]

/-- Step sequence of a run in which store creation wins the race and
succeeds: every step of the script executes, in source order. -/
def fullRunSteps : List Step :=
  preludeSteps ++
    [.inspectSchema, .raceStoreCreation storeId storageType,
     .subscribeCall testEventName, .commitCall testEventName commitPayload,
     .closeCall, .finalDiagnostics]

/-- Step sequence of a run in which the store-creation race rejects:
subscribe, commit and close are skipped; the final diagnostics after
the catch still run. -/
def noStoreSteps : List Step :=
  preludeSteps ++
    [.inspectSchema, .raceStoreCreation storeId storageType, .finalDiagnostics]

/-- Narration of the Step 5 branch (src/test-bug.js lines 80 to 100). -/
def step5Narr (edm : JsVal) : Narration :=
  if (inspectOriginalKeys edm).isEmpty then .bugConfirmed else .schemaWorking

/-- Narration of the subscribe attempt (src/test-bug.js lines 145 to 154):
the catch prints the error's message and constructor name. -/
def subNarrOf : Except JsError Unit → Narration
  | .ok _ => .subscribeOk
  | .error e => .subscribeFailed e.message e.ctorName

/-- Catch sites fired by the subscribe attempt. -/
def subCaughtOf : Except JsError Unit → List CatchSite
  | .ok _ => []
  | .error _ => [.subscribeSite]

/-- Narration of the commit attempt (src/test-bug.js lines 160 to 170):
the catch prints the first line of the error's message and the
constructor name. -/
def comNarrOf : Except JsError Unit → Narration
  | .ok _ => .commitOk
  | .error e => .commitFailed (firstLine e.message) e.ctorName

/-- Catch sites fired by the commit attempt. -/
def comCaughtOf : Except JsError Unit → List CatchSite
  | .ok _ => []
  | .error _ => [.commitSite]

/-- Narration of the close await (src/test-bug.js lines 180 to 181): on
success the store-closed line; a close rejection is handled by the outer
catch, which prints the store-creation-failed line with the error's
message (and no constructor name). -/
def closeNarrOf : Except JsError Unit → Narration
  | .ok _ => .storeClosed
  | .error e => .storeCreationFailed e.message

/-- Catch sites fired by the close await: a rejection lands in the outer
store-creation catch. -/
def closeCaughtOf : Except JsError Unit → List CatchSite
  | .ok _ => []
  | .error _ => [.storeCreation]

/-- Outcome of the part of the run after store creation succeeded. -/
def afterStore (edm : JsVal) (sub com cl : Except JsError Unit) : MainResult :=
  ⟨fullRunSteps,
   [step5Narr edm, .storeCreated, subNarrOf sub, comNarrOf com, closeNarrOf cl],
   subCaughtOf sub ++ comCaughtOf com ++ closeCaughtOf cl,
   none⟩

/-- Operational model of main (src/test-bug.js lines 7 to 198) as a
function of the library's behaviour.  A makeSchema error escapes main
(no local try surrounds steps 1 to 5); a store-creation race rejection
is caught by the outer catch, narrated, and followed by the final
diagnostics; on store-creation success the subscribe and commit attempts
are individually caught and the close await runs regardless, its
rejection landing in the outer catch. -/
def runMain (env : LibEnv) : MainResult :=
  match env.makeSchemaResult with
  | .error e => ⟨preludeSteps, [], [], some e⟩
  | .ok edm =>
      match raceStoreAgainstTimer env with
      | .error e =>
          ⟨noStoreSteps,
           [step5Narr edm, .storeCreationFailed e.message],
           [.storeCreation],
           none⟩
      | .ok _ =>
          afterStore edm env.subscribeOutcome env.commitOutcome
            env.closeOutcome

/-- Process-level outcome: the process.exit calls actually performed, in
order, and the error logged by the top-level catch, if any. -/
structure ProcessOutcome where
  exitCalls : List Nat
  loggedUnhandled : Option JsError
  deriving DecidableEq, Repr

/-- Top-level promise handlers (src/test-bug.js lines 201 to 209).  When
main rejects, the catch handler logs the error and calls process.exit
with code 1; process.exit terminates the process synchronously, so the
finally handler never runs and its exit with code 0 is never performed.
When main resolves, the catch handler is skipped and the finally handler
calls process.exit with code 0. -/
def runProcess (env : LibEnv) : ProcessOutcome :=
  match (runMain env).escaped with
  | some e => ⟨[1], some e⟩
  | none => ⟨[0], none⟩

/-- Exit code of the process: the first (and only) exit call performed. -/
def processExitCode (env : LibEnv) : Nat :=
  (runProcess env).exitCalls.headD 0

/-- Raise-versus-return profile of the library calls of one run: for
each of makeSchema, store creation, subscribe, commit and close, whether
the call returned normally. -/
def raiseProfile (env : LibEnv) : List Bool :=
  [returnedNormally env.makeSchemaResult,
   returnedNormally env.storeOutcome,
   returnedNormally env.subscribeOutcome,
   returnedNormally env.commitOutcome,
   returnedNormally env.closeOutcome]

/-- Environment in which every library call succeeds, makeSchema returns
a schema whose eventsDefsMap is a Map with the one defined event, and
store creation settles well before the timer. -/
def envAllOk : LibEnv :=
  ⟨.ok (.jsMap ["v1.TestEvent"]), 100, .ok (), true, .ok (), .ok (), .ok ()⟩

/-- Environment identical to envAllOk except that the eventsDefsMap
field is a plain object with one own enumerable property. -/
def envObjOk : LibEnv :=
  ⟨.ok (.jsObj [("v1.TestEvent", 1)]), 100, .ok (), true, .ok (), .ok (), .ok ()⟩

/-- Environment in which store creation takes longer than the timer. -/
def envTimeout : LibEnv :=
  ⟨.ok (.jsMap ["v1.TestEvent"]), 6000, .ok (), true, .ok (), .ok (), .ok ()⟩

/-- Environment in which store creation rejects before the timer fires. -/
def envStoreFails : LibEnv :=
  ⟨.ok (.jsMap ["v1.TestEvent"]), 100, .error ⟨"adapter boot failed", "Error"⟩,
   true, .ok (), .ok (), .ok ()⟩

/-- Environment in which subscribe and commit both throw, as in the
original repository run. -/
def envSubCommitFail : LibEnv :=
  ⟨.ok (.jsMap ["v1.TestEvent"]), 100, .ok (), true,
   .error ⟨"Cannot read properties of undefined", "TypeError"⟩,
   .error ⟨"No mutation definition found", "Error"⟩, .ok ()⟩

/-- Environment in which the makeSchema call itself throws. -/
def envSchemaThrows : LibEnv :=
  ⟨.error ⟨"makeSchema failed", "Error"⟩, 100, .ok (), true,
   .ok (), .ok (), .ok ()⟩

end TestBug

namespace TestBug

/-- Helper: evaluation of the run when the makeSchema call throws. -/
theorem runMain_schemaError (env : LibEnv) (e : JsError)
    (h : env.makeSchemaResult = .error e) :
    runMain env = ⟨preludeSteps, [], [], some e⟩ := by
  unfold runMain
  rw [h]

/-- Helper: evaluation of the run when makeSchema returns and the
store-creation race rejects. -/
theorem runMain_raceError (env : LibEnv) (edm : JsVal) (e : JsError)
    (h1 : env.makeSchemaResult = .ok edm)
    (h2 : raceStoreAgainstTimer env = .error e) :
    runMain env =
      ⟨noStoreSteps, [step5Narr edm, .storeCreationFailed e.message],
       [.storeCreation], none⟩ := by
  unfold runMain
  rw [h1, h2]

/-- Helper: evaluation of the run when makeSchema returns and the
store-creation race resolves. -/
theorem runMain_storeOk (env : LibEnv) (edm : JsVal)
    (h1 : env.makeSchemaResult = .ok edm)
    (h2 : raceStoreAgainstTimer env = .ok ()) :
    runMain env =
      afterStore edm env.subscribeOutcome env.commitOutcome
        env.closeOutcome := by
  unfold runMain
  rw [h1, h2]

/-- Helper: in every environment, the run's step sequence is a sublist
of the full-run step sequence. -/
theorem steps_sublist (env : LibEnv) :
    List.Sublist (runMain env).steps fullRunSteps := by
  cases h1 : env.makeSchemaResult with
  | error e =>
      rw [runMain_schemaError env e h1]
      show List.Sublist preludeSteps fullRunSteps
      decide
  | ok edm =>
      cases h2 : raceStoreAgainstTimer env with
      | error e =>
          rw [runMain_raceError env edm e h1 h2]
          show List.Sublist noStoreSteps fullRunSteps
          decide
      | ok u =>
          cases u
          rw [runMain_storeOk env edm h1 h2]
          exact List.Sublist.refl _

/-- Claim C1: the original script classifies a non-empty Map as empty and
prints the BUG CONFIRMED branch, while the corrected script classifies
the same Map as populated: the two Step 5 classifications disagree on
every JavaScript Map with at least one entry. -/
theorem step5_branches_disagree (keys : List String) (h : keys ≠ []) :
    step5Original (.jsMap keys) = .ok true ∧
    step5Corrected (.jsMap keys) = .ok true := by
  constructor
  · rfl
  · have hlen : 0 < keys.length := List.length_pos.mpr h
    simp [step5Corrected, getProp, Except.map, jsGtZero, hlen]

theorem step5_branches_disagree_witness :
    (["v1.TestEvent"] : List String) ≠ [] ∧
    (step5Original (.jsMap ["v1.TestEvent"]) = .ok true ∧
     step5Corrected (.jsMap ["v1.TestEvent"]) = .ok true) :=
  ⟨by decide, step5_branches_disagree ["v1.TestEvent"] (by decide)⟩

/-- Claim C9: the original script's guarded inspection and Step 5 branch
never throw, for every value of eventsDefsMap; the corrected script's
unguarded size access returns normally on every Map and on every plain
object, and throws on undefined and on null. -/
theorem inspection_totality :
    (∀ v, inspectOriginal v = .ok (inspectOriginalKeys v)) ∧
    (∀ v, step5Original v = .ok (inspectOriginalKeys v).isEmpty) ∧
    (∀ keys p, returnedNormally (getProp (.jsMap keys) p) = true) ∧
    (∀ props p, returnedNormally (getProp (.jsObj props) p) = true) ∧
    (∀ p, returnedNormally (getProp .undef p) = false) ∧
    (∀ p, returnedNormally (getProp .jsNull p) = false) := by
  refine ⟨fun v => ?_, fun v => ?_, fun keys p => ?_, fun props p => ?_,
    fun p => rfl, fun p => rfl⟩
  · cases v <;> rfl
  · cases v <;> rfl
  · by_cases hp : p = "size" <;> simp [getProp, returnedNormally, hp]
  · cases hl : (props.lookup p) <;> simp [getProp, returnedNormally, hl]

/-- Claim C2: store creation is raced against a single fixed timer of
5000 milliseconds that rejects with the message Store creation timed
out; whichever settles first determines the outcome of the await (the
store-creation outcome when creation wins, the caught and narrated
timeout error when the timer fires first), and the loser is never
cancelled: no run performs a clear-timer or abort action. -/
theorem race_timeout_model :
    timeoutMs = 5000 ∧
    timeoutError.message = "Store creation timed out" ∧
    (∀ env, env.storeSettleMs < timeoutMs →
       raceStoreAgainstTimer env = env.storeOutcome) ∧
    (∀ env, timeoutMs < env.storeSettleMs →
       raceStoreAgainstTimer env = .error timeoutError) ∧
    (∀ env edm, env.makeSchemaResult = .ok edm →
       timeoutMs < env.storeSettleMs →
       Narration.storeCreationFailed "Store creation timed out" ∈
         (runMain env).narration) ∧
    (∀ env, Step.clearTimerCall ∉ (runMain env).steps ∧
       Step.abortStoreCreation ∉ (runMain env).steps) := by
  have hrace : ∀ env : LibEnv, timeoutMs < env.storeSettleMs →
      raceStoreAgainstTimer env = .error timeoutError := by
    intro env h
    have h1 : ¬ env.storeSettleMs < timeoutMs := by omega
    simp [raceStoreAgainstTimer, h1, h]
  refine ⟨rfl, rfl, fun env h => ?_, hrace, fun env edm h1 h2 => ?_, fun env => ?_⟩
  · simp [raceStoreAgainstTimer, h]
  · rw [runMain_raceError env edm timeoutError h1 (hrace env h2)]
    simp [timeoutError]
  · have hs := (steps_sublist env).subset
    constructor
    · intro hmem
      have hf := hs hmem
      revert hf
      decide
    · intro hmem
      have hf := hs hmem
      revert hf
      decide

theorem race_timeout_model_witness :
    timeoutMs < envTimeout.storeSettleMs ∧
    raceStoreAgainstTimer envTimeout = .error timeoutError :=
  ⟨by decide, race_timeout_model.2.2.2.1 envTimeout (by decide)⟩

/-- Claim C3: on an error escaping main, the top-level catch logs the
error and the process exits with code 1; when main completes without an
escaping error, the finally handler forces exit code 0; exactly one
process.exit call is performed per run (so the forced exit 0 can never
override the exit 1 of the catch handler) and no other code is
possible. -/
theorem exit_code_model (env : LibEnv) :
    (∀ e, (runMain env).escaped = some e →
       runProcess env = ⟨[1], some e⟩) ∧
    ((runMain env).escaped = none → runProcess env = ⟨[0], none⟩) ∧
    (runProcess env).exitCalls = [processExitCode env] ∧
    (processExitCode env = 0 ∨ processExitCode env = 1) := by
  refine ⟨fun e h => ?_, fun h => ?_, ?_, ?_⟩
  · unfold runProcess
    rw [h]
  · unfold runProcess
    rw [h]
  · cases h : (runMain env).escaped <;>
      simp [runProcess, processExitCode, h]
  · cases h : (runMain env).escaped <;>
      simp [runProcess, processExitCode, h]

theorem exit_code_model_witness :
    ((runMain envSchemaThrows).escaped = some ⟨"makeSchema failed", "Error"⟩ ∧
     runProcess envSchemaThrows = ⟨[1], some ⟨"makeSchema failed", "Error"⟩⟩) ∧
    ((runMain envAllOk).escaped = none ∧
     runProcess envAllOk = ⟨[0], none⟩) :=
  ⟨⟨by decide,
    (exit_code_model envSchemaThrows).1 ⟨"makeSchema failed", "Error"⟩ (by decide)⟩,
   ⟨by decide, (exit_code_model envAllOk).2.1 (by decide)⟩⟩

/-- Claim C4 counterexample: library errors are not caught at only the
subscribe and commit sites.  In the concrete run in which store creation
rejects, the error is caught by a third local catch, the one around the
store-creation race; it does not escape main, and the process still
exits with code 0 (under the claim as stated the error would have had to
escape to the top-level handler and exit with code 1). -/
theorem catch_sites_counterexample :
    (runMain envStoreFails).caught = [CatchSite.storeCreation] ∧
    CatchSite.storeCreation ∉ [CatchSite.subscribeSite, CatchSite.commitSite] ∧
    Narration.storeCreationFailed "adapter boot failed" ∈
      (runMain envStoreFails).narration ∧
    (runMain envStoreFails).escaped = none ∧
    processExitCode envStoreFails = 0 := by
  decide

/-- Claim C4 as amended: library errors are caught locally at three call
sites, not two: the store-creation race (whose try block also covers the
close await), subscribe, and commit.  A run escapes main only on a
makeSchema error; in a run where store creation succeeded, the subscribe
catch fires exactly when subscribe throws, the commit catch exactly when
commit throws, and the outer store-creation catch exactly when close
rejects.  The subscribe catch prints the message and constructor name
and is followed by the commit call; the commit catch prints the first
line of the message and the constructor name and is followed by the
close call; the store-creation catch prints only the message and is
followed by the final diagnostics. -/
theorem local_catch_sites_amended (env : LibEnv) :
    ((runMain env).escaped = none ↔
       returnedNormally env.makeSchemaResult = true) ∧
    (∀ edm, env.makeSchemaResult = .ok edm →
       raceStoreAgainstTimer env = .ok () →
       (CatchSite.subscribeSite ∈ (runMain env).caught ↔
          returnedNormally env.subscribeOutcome = false) ∧
       (CatchSite.commitSite ∈ (runMain env).caught ↔
          returnedNormally env.commitOutcome = false) ∧
       (CatchSite.storeCreation ∈ (runMain env).caught ↔
          returnedNormally env.closeOutcome = false)) ∧
    (∀ edm e, env.makeSchemaResult = .ok edm →
       raceStoreAgainstTimer env = .ok () →
       env.subscribeOutcome = .error e →
       Narration.subscribeFailed e.message e.ctorName ∈
         (runMain env).narration ∧
       Step.commitCall testEventName commitPayload ∈ (runMain env).steps) ∧
    (∀ edm e, env.makeSchemaResult = .ok edm →
       raceStoreAgainstTimer env = .ok () →
       env.commitOutcome = .error e →
       Narration.commitFailed (firstLine e.message) e.ctorName ∈
         (runMain env).narration ∧
       Step.closeCall ∈ (runMain env).steps) ∧
    (∀ edm e, env.makeSchemaResult = .ok edm →
       raceStoreAgainstTimer env = .error e →
       CatchSite.storeCreation ∈ (runMain env).caught ∧
       Narration.storeCreationFailed e.message ∈ (runMain env).narration ∧
       Step.finalDiagnostics ∈ (runMain env).steps) := by
  refine ⟨?_, fun edm h1 h2 => ?_, fun edm e h1 h2 h3 => ?_,
    fun edm e h1 h2 h3 => ?_, fun edm e h1 h2 => ?_⟩
  · cases h1 : env.makeSchemaResult with
    | error e =>
        rw [runMain_schemaError env e h1]
        simp [returnedNormally]
    | ok edm =>
        cases h2 : raceStoreAgainstTimer env with
        | error e =>
            rw [runMain_raceError env edm e h1 h2]
            simp [returnedNormally]
        | ok u =>
            cases u
            rw [runMain_storeOk env edm h1 h2]
            simp [afterStore, returnedNormally]
  · rw [runMain_storeOk env edm h1 h2]
    cases hs : env.subscribeOutcome <;> cases hc : env.commitOutcome <;>
      cases hcl : env.closeOutcome <;>
      simp [afterStore, subCaughtOf, comCaughtOf, closeCaughtOf,
        returnedNormally]
  · rw [runMain_storeOk env edm h1 h2, h3]
    refine ⟨?_, ?_⟩
    · simp [afterStore, subNarrOf]
    · simp [afterStore, fullRunSteps, preludeSteps]
  · rw [runMain_storeOk env edm h1 h2, h3]
    refine ⟨?_, ?_⟩
    · simp [afterStore, comNarrOf]
    · simp [afterStore, fullRunSteps, preludeSteps]
  · rw [runMain_raceError env edm e h1 h2]
    refine ⟨?_, ?_, ?_⟩
    · simp
    · simp
    · simp [noStoreSteps, preludeSteps]

theorem local_catch_sites_amended_witness :
    (envSubCommitFail.makeSchemaResult = .ok (.jsMap ["v1.TestEvent"]) ∧
     raceStoreAgainstTimer envSubCommitFail = .ok () ∧
     envSubCommitFail.subscribeOutcome =
       .error ⟨"Cannot read properties of undefined", "TypeError"⟩) ∧
    (Narration.subscribeFailed "Cannot read properties of undefined"
       "TypeError" ∈ (runMain envSubCommitFail).narration ∧
     Step.commitCall testEventName commitPayload ∈
       (runMain envSubCommitFail).steps) :=
  ⟨⟨by decide, by decide, by decide⟩,
   (local_catch_sites_amended envSubCommitFail).2.2.1
     (.jsMap ["v1.TestEvent"])
     ⟨"Cannot read properties of undefined", "TypeError"⟩
     (by decide) (by decide) (by decide)⟩

/-- Claim C5 counterexample: the Step 5 narration is not determined by
whether library calls raised or returned.  Two concrete runs with the
same raise-versus-return profile of every library call print different
Step 5 lines, and no function of the raise-versus-return profile yields
the first narration line of every run. -/
theorem step5_narration_counterexample :
    (raiseProfile envAllOk = raiseProfile envObjOk ∧
     (runMain envAllOk).narration.head? = some Narration.bugConfirmed ∧
     (runMain envObjOk).narration.head? = some Narration.schemaWorking) ∧
    ¬ ∃ f : List Bool → Option Narration,
        ∀ env, (runMain env).narration.head? = f (raiseProfile env) := by
  refine ⟨by decide, ?_⟩
  rintro ⟨f, hf⟩
  have h1 := hf envAllOk
  have h2 := hf envObjOk
  have hp : raiseProfile envAllOk = raiseProfile envObjOk := by decide
  rw [hp] at h1
  have h3 := h1.trans h2.symm
  revert h3
  decide

/-- Claim C5 as amended: the subscribe, commit, store-created and
store-closed narration lines are each determined by whether the
corresponding library call raised or returned, but the Step 5 narration
is determined by the shape of the value makeSchema returned: the BUG
CONFIRMED line is printed exactly when Object.keys of (eventsDefsMap or
empty object) is empty, and the schema-appears-to-be-working line
exactly otherwise. -/
theorem narration_decided_amended (env : LibEnv) :
    (∀ edm, env.makeSchemaResult = .ok edm →
       ((runMain env).narration.head? = some Narration.bugConfirmed ↔
          inspectOriginalKeys edm = []) ∧
       ((runMain env).narration.head? = some Narration.schemaWorking ↔
          inspectOriginalKeys edm ≠ [])) ∧
    (∀ edm, env.makeSchemaResult = .ok edm →
       raceStoreAgainstTimer env = .ok () →
       (Narration.storeCreated ∈ (runMain env).narration) ∧
       (Narration.subscribeOk ∈ (runMain env).narration ↔
          returnedNormally env.subscribeOutcome = true) ∧
       (Narration.commitOk ∈ (runMain env).narration ↔
          returnedNormally env.commitOutcome = true) ∧
       (Narration.storeClosed ∈ (runMain env).narration ↔
          returnedNormally env.closeOutcome = true)) ∧
    (∀ edm e, env.makeSchemaResult = .ok edm →
       raceStoreAgainstTimer env = .error e →
       Narration.storeCreationFailed e.message ∈ (runMain env).narration) := by
  refine ⟨fun edm h1 => ?_, fun edm h1 h2 => ?_, fun edm e h1 h2 => ?_⟩
  · have hhead : (runMain env).narration.head? = some (step5Narr edm) := by
      cases h2 : raceStoreAgainstTimer env with
      | error e =>
          rw [runMain_raceError env edm e h1 h2]
          rfl
      | ok u =>
          cases u
          rw [runMain_storeOk env edm h1 h2]
          rfl
    rw [hhead]
    unfold step5Narr
    by_cases hk : (inspectOriginalKeys edm).isEmpty
    · have hk2 : inspectOriginalKeys edm = [] := List.isEmpty_iff.mp hk
      simp [hk, hk2]
    · have hk2 : inspectOriginalKeys edm ≠ [] := by
        intro hcon
        exact hk (List.isEmpty_iff.mpr hcon)
      simp [hk, hk2]
  · rw [runMain_storeOk env edm h1 h2]
    cases hs : env.subscribeOutcome <;> cases hc : env.commitOutcome <;>
      cases hcl : env.closeOutcome <;>
      simp [afterStore, step5Narr, subNarrOf, comNarrOf, closeNarrOf,
        returnedNormally] <;>
      split <;> simp
  · rw [runMain_raceError env edm e h1 h2]
    simp

theorem narration_decided_amended_witness :
    (envAllOk.makeSchemaResult = .ok (.jsMap ["v1.TestEvent"])) ∧
    ((runMain envAllOk).narration.head? = some Narration.bugConfirmed ↔
       inspectOriginalKeys (.jsMap ["v1.TestEvent"]) = []) :=
  ⟨by decide,
   ((narration_decided_amended envAllOk).1 (.jsMap ["v1.TestEvent"])
      (by decide)).1⟩

/-- Claim C6 counterexample: not every run executes all the listed steps.
In the concrete run in which store creation loses the race to the timer,
subscribe is never attempted, commit is never attempted, and the store
is never closed. -/
theorem fixed_order_counterexample :
    (runMain envTimeout).steps ≠ fullRunSteps ∧
    Step.subscribeCall testEventName ∉ (runMain envTimeout).steps ∧
    Step.commitCall testEventName commitPayload ∉ (runMain envTimeout).steps ∧
    Step.closeCall ∉ (runMain envTimeout).steps := by
  decide

/-- Claim C6 as amended: every run executes its steps in the one fixed
source order (its step sequence is a sublist of the full-run sequence);
a run in which makeSchema returns and store creation wins and succeeds
executes exactly the full sequence; a run in which the race rejects
skips subscribe, commit and close but still prints the final
diagnostics; a run in which makeSchema throws stops after the first
three steps. -/
theorem fixed_order_amended (env : LibEnv) :
    List.Sublist (runMain env).steps fullRunSteps ∧
    (∀ edm, env.makeSchemaResult = .ok edm →
       raceStoreAgainstTimer env = .ok () →
       (runMain env).steps = fullRunSteps) ∧
    (∀ edm e, env.makeSchemaResult = .ok edm →
       raceStoreAgainstTimer env = .error e →
       (runMain env).steps = noStoreSteps) ∧
    (∀ e, env.makeSchemaResult = .error e →
       (runMain env).steps = preludeSteps) := by
  refine ⟨steps_sublist env, fun edm h1 h2 => ?_, fun edm e h1 h2 => ?_,
    fun e h => ?_⟩
  · rw [runMain_storeOk env edm h1 h2]
    rfl
  · rw [runMain_raceError env edm e h1 h2]
  · rw [runMain_schemaError env e h]

theorem fixed_order_amended_witness :
    (envAllOk.makeSchemaResult = .ok (.jsMap ["v1.TestEvent"]) ∧
     raceStoreAgainstTimer envAllOk = .ok ()) ∧
    (runMain envAllOk).steps = fullRunSteps :=
  ⟨⟨by decide, by decide⟩,
   (fixed_order_amended envAllOk).2.1 (.jsMap ["v1.TestEvent"])
     (by decide) (by decide)⟩

/-- Claim C7: the locally constructed data consists exactly of the event
definition named v1.TestEvent with a two-string-field payload struct,
the table named test with a text primary-key id column and a text
message column, the adapter and store configuration literals (storage
type in-memory, store identifier test-bug-repro), and the commit payload
with id test-123 and message Hello World; these exact literals are the
arguments the run passes to the library calls. -/
theorem constructed_literals :
    testEvent = ⟨"v1.TestEvent",
      [("id", .stringField), ("message", .stringField)]⟩ ∧
    testTable = ⟨"test", [("id", ⟨"text", true⟩), ("message", ⟨"text", false⟩)]⟩ ∧
    storageType = "in-memory" ∧
    storeId = "test-bug-repro" ∧
    testEventName = testEvent.name ∧
    commitPayload = [("id", "test-123"), ("message", "Hello World")] ∧
    (∀ env edm, env.makeSchemaResult = .ok edm →
       Step.raceStoreCreation "test-bug-repro" "in-memory" ∈
         (runMain env).steps) ∧
    (∀ env edm, env.makeSchemaResult = .ok edm →
       raceStoreAgainstTimer env = .ok () →
       Step.subscribeCall "v1.TestEvent" ∈ (runMain env).steps ∧
       Step.commitCall "v1.TestEvent"
         [("id", "test-123"), ("message", "Hello World")] ∈
         (runMain env).steps) := by
  refine ⟨rfl, rfl, rfl, rfl, rfl, rfl, fun env edm h1 => ?_,
    fun env edm h1 h2 => ?_⟩
  · cases h2 : raceStoreAgainstTimer env with
    | error e =>
        rw [runMain_raceError env edm e h1 h2]
        show Step.raceStoreCreation "test-bug-repro" "in-memory" ∈ noStoreSteps
        decide
    | ok u =>
        cases u
        rw [runMain_storeOk env edm h1 h2]
        show Step.raceStoreCreation "test-bug-repro" "in-memory" ∈ fullRunSteps
        decide
  · rw [runMain_storeOk env edm h1 h2]
    refine ⟨?_, ?_⟩
    · show Step.subscribeCall "v1.TestEvent" ∈ fullRunSteps
      decide
    · show Step.commitCall "v1.TestEvent"
        [("id", "test-123"), ("message", "Hello World")] ∈ fullRunSteps
      decide

theorem constructed_literals_witness :
    (envAllOk.makeSchemaResult = .ok (.jsMap ["v1.TestEvent"]) ∧
     raceStoreAgainstTimer envAllOk = .ok ()) ∧
    (Step.subscribeCall "v1.TestEvent" ∈ (runMain envAllOk).steps ∧
     Step.commitCall "v1.TestEvent"
       [("id", "test-123"), ("message", "Hello World")] ∈
       (runMain envAllOk).steps) :=
  ⟨⟨by decide, by decide⟩,
   constructed_literals.2.2.2.2.2.2.2 envAllOk (.jsMap ["v1.TestEvent"])
     (by decide) (by decide)⟩

/-- Claim C8: no library call site is invoked more than once per run
(every step occurs at most once in every run's step sequence), a caught
failure is terminal to its step and never retried, and execution
proceeds: after a caught subscribe or commit failure the following calls
still run, and after a caught store-creation failure the final
diagnostics still run and nothing escapes main. -/
theorem no_retry_single_invocation (env : LibEnv) :
    (∀ s, (runMain env).steps.count s ≤ 1) ∧
    (∀ edm, env.makeSchemaResult = .ok edm →
       raceStoreAgainstTimer env = .ok () →
       Step.commitCall testEventName commitPayload ∈ (runMain env).steps ∧
       Step.closeCall ∈ (runMain env).steps ∧
       Step.finalDiagnostics ∈ (runMain env).steps) ∧
    (∀ edm e, env.makeSchemaResult = .ok edm →
       raceStoreAgainstTimer env = .error e →
       Step.finalDiagnostics ∈ (runMain env).steps ∧
       (runMain env).escaped = none) := by
  have hnd : fullRunSteps.Nodup := by decide
  refine ⟨fun s => ?_, fun edm h1 h2 => ?_, fun edm e h1 h2 => ?_⟩
  · calc (runMain env).steps.count s
        ≤ fullRunSteps.count s := (steps_sublist env).count_le s
      _ ≤ 1 := List.nodup_iff_count_le_one.mp hnd s
  · rw [runMain_storeOk env edm h1 h2]
    refine ⟨?_, ?_, ?_⟩ <;>
      · show _ ∈ fullRunSteps
        decide
  · rw [runMain_raceError env edm e h1 h2]
    refine ⟨?_, rfl⟩
    show Step.finalDiagnostics ∈ noStoreSteps
    decide

theorem no_retry_single_invocation_witness :
    (envSubCommitFail.makeSchemaResult = .ok (.jsMap ["v1.TestEvent"]) ∧
     raceStoreAgainstTimer envSubCommitFail = .ok ()) ∧
    (Step.commitCall testEventName commitPayload ∈
       (runMain envSubCommitFail).steps ∧
     Step.closeCall ∈ (runMain envSubCommitFail).steps ∧
     Step.finalDiagnostics ∈ (runMain envSubCommitFail).steps) :=
  ⟨⟨by decide, by decide⟩,
   (no_retry_single_invocation envSubCommitFail).2.1
     (.jsMap ["v1.TestEvent"]) (by decide) (by decide)⟩

/-- Claim C10: whenever store creation wins the race and succeeds, the
close call is awaited exactly once and it occurs before the final
diagnostics, even when the subscribe attempt, the commit attempt, or
both raised errors; when store creation fails or times out (the race
rejects), close is skipped. -/
theorem close_exactly_once (env : LibEnv) :
    (∀ edm, env.makeSchemaResult = .ok edm →
       raceStoreAgainstTimer env = .ok () →
       (runMain env).steps.count Step.closeCall = 1 ∧
       List.Sublist [Step.closeCall, Step.finalDiagnostics]
         (runMain env).steps) ∧
    (∀ edm e, env.makeSchemaResult = .ok edm →
       raceStoreAgainstTimer env = .error e →
       (runMain env).steps.count Step.closeCall = 0) := by
  refine ⟨fun edm h1 h2 => ?_, fun edm e h1 h2 => ?_⟩
  · rw [runMain_storeOk env edm h1 h2]
    refine ⟨?_, ?_⟩
    · show fullRunSteps.count Step.closeCall = 1
      decide
    · show List.Sublist [Step.closeCall, Step.finalDiagnostics] fullRunSteps
      decide
  · rw [runMain_raceError env edm e h1 h2]
    show noStoreSteps.count Step.closeCall = 0
    decide

theorem close_exactly_once_witness :
    (envSubCommitFail.makeSchemaResult = .ok (.jsMap ["v1.TestEvent"]) ∧
     raceStoreAgainstTimer envSubCommitFail = .ok ()) ∧
    ((runMain envSubCommitFail).steps.count Step.closeCall = 1 ∧
     List.Sublist [Step.closeCall, Step.finalDiagnostics]
       (runMain envSubCommitFail).steps) :=
  ⟨⟨by decide, by decide⟩,
   (close_exactly_once envSubCommitFail).1 (.jsMap ["v1.TestEvent"])
     (by decide) (by decide)⟩

end TestBug
